import Mathlib

/-!
Verification development for the Scrollbar component of
react-scrollbars-custom (src/index.js).

The geometry functions of the component (computeThumbSize,
computeThumbOffset, computeScrollForOffset) are plain JavaScript
arithmetic on IEEE doubles, relying on truthiness coercion
(the `x || 0` and `a && b` idioms).  We model a JavaScript number as
either a finite rational, +Infinity, -Infinity, or NaN, and give the
arithmetic operators their JavaScript semantics on this type.
Negative zero and floating-point rounding/overflow are not modelled:
finite values are exact rationals, and a zero denominator is treated as
+0 (the only way these functions obtain a zero denominator is by
subtracting equal finite values or receiving a literal 0, both of which
produce +0 in JavaScript).
-/

/-- A JavaScript number: finite (exact rational), an infinity, or NaN. -/
inductive JSNum where
  | num (q : ℚ)
  | inf
  | negInf
  | nan
  deriving DecidableEq, Repr

namespace JSNum

/-- JavaScript truthiness of a number: 0, -0 and NaN are falsy. -/
def truthy : JSNum → Bool
  | num q => decide (q ≠ 0)
  | nan => false
  | _ => true

/-- The JavaScript idiom `x || 0`: replaces a falsy value by 0. -/
def jsOrZero (x : JSNum) : JSNum :=
  if truthy x then x else num 0

/-- The JavaScript expression `a && b`. -/
def jsand (a b : JSNum) : JSNum :=
  if truthy a then b else a

/-- JavaScript addition. -/
def jsadd : JSNum → JSNum → JSNum
  | num a, num b => num (a + b)
  | num _, inf | inf, num _ | inf, inf => inf
  | num _, negInf | negInf, num _ | negInf, negInf => negInf
  | _, _ => nan

/-- JavaScript subtraction. -/
def jssub : JSNum → JSNum → JSNum
  | num a, num b => num (a - b)
  | num _, negInf | inf, num _ | inf, negInf => inf
  | num _, inf | negInf, num _ | negInf, inf => negInf
  | _, _ => nan

/-- JavaScript multiplication. -/
def jsmul : JSNum → JSNum → JSNum
  | num a, num b => num (a * b)
  | num a, inf => if a = 0 then nan else if 0 < a then inf else negInf
  | num a, negInf => if a = 0 then nan else if 0 < a then negInf else inf
  | inf, num b => if b = 0 then nan else if 0 < b then inf else negInf
  | negInf, num b => if b = 0 then nan else if 0 < b then negInf else inf
  | inf, inf => inf
  | inf, negInf => negInf
  | negInf, inf => negInf
  | negInf, negInf => inf
  | _, _ => nan

/-- JavaScript division (zero denominators are +0, see module comment). -/
def jsdiv : JSNum → JSNum → JSNum
  | num a, num b =>
      if b = 0 then (if a = 0 then nan else if 0 < a then inf else negInf)
      else num (a / b)
  | inf, num b => if b < 0 then negInf else inf
  | negInf, num b => if b < 0 then inf else negInf
  | num _, inf => num 0
  | num _, negInf => num 0
  | _, _ => nan

/-- JavaScript Math.ceil. -/
def jsceil : JSNum → JSNum
  | num q => num ⌈q⌉
  | x => x

/-- JavaScript Math.max (NaN-propagating). -/
def jsmax : JSNum → JSNum → JSNum
  | nan, _ => nan
  | _, nan => nan
  | inf, _ => inf
  | _, inf => inf
  | negInf, x => x
  | x, negInf => x
  | num a, num b => num (max a b)

/-- JavaScript strict equality on numbers (NaN equals nothing). -/
def jseq : JSNum → JSNum → Bool
  | num a, num b => decide (a = b)
  | inf, inf => true
  | negInf, negInf => true
  | _, _ => false

/-- JavaScript less-than on numbers (false whenever NaN is involved). -/
def jslt : JSNum → JSNum → Bool
  | nan, _ => false
  | _, nan => false
  | inf, _ => false
  | negInf, negInf => false
  | negInf, _ => true
  | num _, inf => true
  | num _, negInf => false
  | num a, num b => decide (a < b)

end JSNum

open JSNum in
/-- Scrollbar.computeThumbSize (src/index.js lines 176-180):
  const size = Math.ceil((viewportSize / scrollableSize) * trackSize) || 0;
  return trackSize === size ? 0 : Math.max(size, minimalSize); -/
def computeThumbSize (trackSize scrollableSize viewportSize minimalSize : JSNum) : JSNum :=
  let size := jsOrZero (jsceil (jsmul (jsdiv viewportSize scrollableSize) trackSize))
  if jseq trackSize size then num 0 else jsmax size minimalSize

open JSNum in
/-- Scrollbar.computeThumbOffset (src/index.js lines 192-194):
  return (thumbSize &&
    (scrollValue / (scrollableSize - viewportSize)) * (trackSize - thumbSize)) || 0; -/
def computeThumbOffset (trackSize thumbSize scrollableSize viewportSize scrollValue : JSNum) : JSNum :=
  jsOrZero (jsand thumbSize
    (jsmul (jsdiv scrollValue (jssub scrollableSize viewportSize)) (jssub trackSize thumbSize)))

open JSNum in
/-- Scrollbar.computeScrollForOffset (src/index.js lines 206-208):
  return ((offset - thumbSize / 2) / (trackSize - thumbSize)) *
    (scrollableSize - viewportSize) || 0; -/
def computeScrollForOffset (trackSize thumbSize offset scrollableSize viewportSize : JSNum) : JSNum :=
  jsOrZero (jsmul
    (jsdiv (jssub offset (jsdiv thumbSize (num 2))) (jssub trackSize thumbSize))
    (jssub scrollableSize viewportSize))

/-!
## The synchronization engine

The component keeps a snapshot of scroll metrics (`this.scrollValues`,
all fields initially null), samples fresh metrics from the content
element on every `update` pass, diffs them into a bit mask, and applies
visual effects.  We model the DOM collaborators as plain data
(`ContentMetrics`, track inner sizes) and every imperative style
write / setState / callback as an element of an `Effect` list.
-/

/-- The readable metrics of the content (viewport) element. -/
structure ContentMetrics where
  clientHeight : ℚ
  clientWidth : ℚ
  scrollHeight : ℚ
  scrollWidth : ℚ
  scrollTop : ℚ
  scrollLeft : ℚ
  deriving DecidableEq, Repr

/-- The props of the component that the synchronization logic reads.
Callback props are modelled by their presence. -/
structure Props where
  noScroll : Bool
  noScrollX : Bool
  noScrollY : Bool
  permanentTracks : Bool
  permanentTrackX : Bool
  permanentTrackY : Bool
  minimalThumbsSize : ℚ
  translateContentSizesToHolder : Bool
  onScroll : Bool
  deriving DecidableEq, Repr

/-- The ScrollValues record (src/index.js lines 216-230); every field is
null (`none`) until the first committed pass. -/
structure ScrollValues where
  clientHeight : Option ℚ
  clientWidth : Option ℚ
  scrollHeight : Option ℚ
  scrollWidth : Option ℚ
  scrollTop : Option ℚ
  scrollLeft : Option ℚ
  scrollYBlocked : Option Bool
  scrollXBlocked : Option Bool
  scrollYPossible : Option Bool
  scrollXPossible : Option Bool
  trackYVisible : Option Bool
  trackXVisible : Option Bool
  isRtl : Option Bool
  deriving DecidableEq, Repr

/-- React component state (src/index.js lines 232-236); `isRtl` starts
as the `rtl` prop, which may be undefined (`none`). -/
structure CState where
  trackYVisible : Bool
  trackXVisible : Bool
  isRtl : Option Bool
  deriving DecidableEq, Repr

/-- Coerce a sampled optional boolean (always `some` in practice). -/
def optB (x : Option Bool) : Bool := x.getD false

/-- The currentScrollValues computation of `update`
(src/index.js lines 452-476). -/
def sampleScrollValues (p : Props) (c : ContentMetrics) (isRtl : Bool) : ScrollValues :=
  let scrollXBlocked := p.noScroll || p.noScrollX
  let scrollYBlocked := p.noScroll || p.noScrollY
  let scrollXPossible := !scrollXBlocked && decide (c.scrollWidth > c.clientWidth)
  let scrollYPossible := !scrollYBlocked && decide (c.scrollHeight > c.clientHeight)
  { clientHeight := some c.clientHeight
    clientWidth := some c.clientWidth
    scrollHeight := some c.scrollHeight
    scrollWidth := some c.scrollWidth
    scrollTop := some c.scrollTop
    scrollLeft := some c.scrollLeft
    scrollYBlocked := some scrollYBlocked
    scrollXBlocked := some scrollXBlocked
    scrollYPossible := some scrollYPossible
    scrollXPossible := some scrollXPossible
    trackYVisible := some (scrollYPossible || p.permanentTracks || p.permanentTrackY)
    trackXVisible := some (scrollXPossible || p.permanentTracks || p.permanentTrackX)
    isRtl := some isRtl }

/-- The change mask of `update` (src/index.js lines 478-492), one bit
per changed field, with the source's bit positions. -/
def computeMask (old new : ScrollValues) : Nat :=
  (if old.clientHeight ≠ new.clientHeight then 1 <<< 0 else 0) |||
  (if old.clientWidth ≠ new.clientWidth then 1 <<< 1 else 0) |||
  (if old.scrollHeight ≠ new.scrollHeight then 1 <<< 2 else 0) |||
  (if old.scrollWidth ≠ new.scrollWidth then 1 <<< 3 else 0) |||
  (if old.scrollTop ≠ new.scrollTop then 1 <<< 4 else 0) |||
  (if old.scrollLeft ≠ new.scrollLeft then 1 <<< 5 else 0) |||
  (if old.scrollYBlocked ≠ new.scrollYBlocked then 1 <<< 6 else 0) |||
  (if old.scrollXBlocked ≠ new.scrollXBlocked then 1 <<< 7 else 0) |||
  (if old.scrollYPossible ≠ new.scrollYPossible then 1 <<< 8 else 0) |||
  (if old.scrollXPossible ≠ new.scrollXPossible then 1 <<< 9 else 0) |||
  (if old.trackYVisible ≠ new.trackYVisible then 1 <<< 10 else 0) |||
  (if old.trackXVisible ≠ new.trackXVisible then 1 <<< 11 else 0) |||
  (if old.isRtl ≠ new.isRtl then 1 <<< 12 else 0)

/-- One imperative side effect of a synchronization pass: a setState,
a style write on a track or thumb element, a holder resize, or an
onScroll callback invocation. -/
inductive Effect where
  | setStateIsRtl (isRtl : Bool)
  | setStateTrackVisible (trackYVisible trackXVisible : Bool)
  | trackYDisplay (visible : Bool)
  | trackXDisplay (visible : Bool)
  | thumbY (transform : Option JSNum) (height : JSNum) (visible : Bool)
  | thumbX (transform : Option JSNum) (width : JSNum) (visible : Bool)
  | holderResize (width height : ℚ)
  | onScrollCall (current previous : ScrollValues)
  deriving DecidableEq, Repr

/-- The Y-track block of `update` (src/index.js lines 516-545): when the
track is rendered and a Y-relevant bit changed, recompute the thumb
geometry (or collapse the thumb when scrolling is impossible). -/
def yThumbEffects (minimalThumbsSize : ℚ) (c : ContentMetrics)
    (scrollYPossible trackYVisible : Bool) (mask : Nat) (trackY : Option ℚ) : List Effect :=
  match trackY with
  | none => []
  | some trackSize =>
    (if mask &&& (1 <<< 10) ≠ 0 then [Effect.trackYDisplay trackYVisible] else []) ++
    (if mask &&& (1 <<< 0) ≠ 0 ∨ mask &&& (1 <<< 2) ≠ 0 ∨ mask &&& (1 <<< 4) ≠ 0 ∨
        mask &&& (1 <<< 6) ≠ 0 ∨ mask &&& (1 <<< 8) ≠ 0 then
      if scrollYPossible then
        let thumbSize := computeThumbSize (.num trackSize) (.num c.scrollHeight)
          (.num c.clientHeight) (.num minimalThumbsSize)
        let thumbOffset := computeThumbOffset (.num trackSize) thumbSize
          (.num c.scrollHeight) (.num c.clientHeight) (.num c.scrollTop)
        [Effect.thumbY (some thumbOffset) thumbSize true]
      else
        [Effect.thumbY none (.num 0) false]
    else [])

/-- The X-track block of `update` (src/index.js lines 548-581), with the
right-to-left placement correction of line 569. -/
def xThumbEffects (minimalThumbsSize : ℚ) (isRtl : Bool) (c : ContentMetrics)
    (scrollXPossible trackXVisible : Bool) (mask : Nat) (trackX : Option ℚ) : List Effect :=
  match trackX with
  | none => []
  | some trackSize =>
    (if mask &&& (1 <<< 11) ≠ 0 then [Effect.trackXDisplay trackXVisible] else []) ++
    (if mask &&& (1 <<< 1) ≠ 0 ∨ mask &&& (1 <<< 3) ≠ 0 ∨ mask &&& (1 <<< 5) ≠ 0 ∨
        mask &&& (1 <<< 7) ≠ 0 ∨ mask &&& (1 <<< 9) ≠ 0 then
      if scrollXPossible then
        let thumbSize := computeThumbSize (.num trackSize) (.num c.scrollWidth)
          (.num c.clientWidth) (.num minimalThumbsSize)
        let rawOffset := computeThumbOffset (.num trackSize) thumbSize
          (.num c.scrollWidth) (.num c.clientWidth) (.num c.scrollLeft)
        let thumbOffset :=
          if isRtl then JSNum.jssub (JSNum.jsadd thumbSize rawOffset) (.num trackSize)
          else rawOffset
        [Effect.thumbX (some thumbOffset) thumbSize true]
      else
        [Effect.thumbX none (.num 0) false]
    else [])

/-- The `update` method (src/index.js lines 439-593), with the DOM
collaborators passed in as data.  The recursion of the
track-visibility branch (line 509, `return this.update(true)`) is
fuel-bounded; with the environment fixed within a pass the recursive
call never recurses again (its visibility bits are zero), so any fuel
of at least 1 makes the fuel-exhaustion branch unreachable.
Returns (component state, stored scrollValues, returned snapshot,
effects). -/
def updateGo (p : Props) (c : ContentMetrics) (trackY trackX : Option ℚ)
    (wrapperEl : Bool) (computedRtl : Bool) :
    Nat → Bool → CState → ScrollValues → CState × ScrollValues × ScrollValues × List Effect
  | fuel, forced, st, sv =>
    match st.isRtl with
    | none =>
      ({ st with isRtl := some computedRtl }, sv, sv, [Effect.setStateIsRtl computedRtl])
    | some isRtl =>
      let current := sampleScrollValues p c isRtl
      let mask := computeMask sv current
      if mask = 0 ∧ forced = false then
        (st, sv, sv, [])
      else if mask &&& (1 <<< 10) ≠ 0 ∨ mask &&& (1 <<< 11) ≠ 0 then
        let sv2 := { sv with trackYVisible := current.trackYVisible,
                             trackXVisible := current.trackXVisible }
        let st2 := { st with trackYVisible := optB current.trackYVisible,
                             trackXVisible := optB current.trackXVisible }
        let toggle := Effect.setStateTrackVisible (optB current.trackYVisible)
          (optB current.trackXVisible)
        match fuel with
        | 0 => (st2, sv2, sv2, [toggle])
        | fuel' + 1 =>
          let r := updateGo p c trackY trackX wrapperEl computedRtl fuel' true st2 sv2
          (r.1, r.2.1, r.2.2.1, toggle :: r.2.2.2)
      else
        let effs :=
          yThumbEffects p.minimalThumbsSize c (optB current.scrollYPossible)
            (optB current.trackYVisible) mask trackY ++
          xThumbEffects p.minimalThumbsSize isRtl c (optB current.scrollXPossible)
            (optB current.trackXVisible) mask trackX ++
          (if p.translateContentSizesToHolder = true ∧ wrapperEl = true ∧
              (mask &&& (1 <<< 2) ≠ 0 ∨ mask &&& (1 <<< 3) ≠ 0) then
            [Effect.holderResize c.scrollWidth c.scrollHeight]
          else []) ++
          (if sv.scrollTop ≠ none ∧ p.onScroll = true then [Effect.onScrollCall current sv]
          else [])
        (st, current, current, effs)

/-!
## Public accessors, scroll commands, and gesture handlers

The viewport writes and callback invocations these perform are modelled
as an `Action` list.
-/

/-- One imperative action of an accessor or gesture handler. -/
inductive DomAction where
  | writeScrollTop (value : JSNum)
  | writeScrollLeft (value : JSNum)
  | invokeUpdate
  | scrollDetectSignal
  | notifyTrackXClick
  | notifyTrackYClick
  | notifyThumbXDrag
  | notifyThumbYDrag
  deriving DecidableEq, Repr

/-- `get scrollTop` (src/index.js lines 293-299). -/
def getScrollTop (contentEl : Option ContentMetrics) : ℚ :=
  match contentEl with
  | some c => c.scrollTop
  | none => 0

/-- `get scrollLeft` (src/index.js lines 319-325). -/
def getScrollLeft (contentEl : Option ContentMetrics) : ℚ :=
  match contentEl with
  | some c => c.scrollLeft
  | none => 0

/-- `get scrollHeight` (src/index.js lines 341-347). -/
def getScrollHeight (contentEl : Option ContentMetrics) : ℚ :=
  match contentEl with
  | some c => c.scrollHeight
  | none => 0

/-- `get scrollWidth` (src/index.js lines 352-358). -/
def getScrollWidth (contentEl : Option ContentMetrics) : ℚ :=
  match contentEl with
  | some c => c.scrollWidth
  | none => 0

/-- `get clientHeight` (src/index.js lines 363-369). -/
def getClientHeight (contentEl : Option ContentMetrics) : ℚ :=
  match contentEl with
  | some c => c.clientHeight
  | none => 0

/-- `get clientWidth` (src/index.js lines 374-380). -/
def getClientWidth (contentEl : Option ContentMetrics) : ℚ :=
  match contentEl with
  | some c => c.clientWidth
  | none => 0

/-- `set scrollTop` (src/index.js lines 307-312): writes the viewport
and invokes a synchronization pass. -/
def setScrollTop (contentEl : Option ContentMetrics) (top : ℚ) : List DomAction :=
  match contentEl with
  | some _ => [DomAction.writeScrollTop (.num top), DomAction.invokeUpdate]
  | none => []

/-- `set scrollLeft` (src/index.js lines 332-336): writes the viewport
only. -/
def setScrollLeft (contentEl : Option ContentMetrics) (left : ℚ) : List DomAction :=
  match contentEl with
  | some _ => [DomAction.writeScrollLeft (.num left)]
  | none => []

/-- `scrollToTop` (src/index.js lines 387-393); returns `this`. -/
def scrollToTop {α : Type} (self : α) (contentEl : Option ContentMetrics) : α × List DomAction :=
  (self, match contentEl with
    | some _ => [DomAction.writeScrollTop (.num 0)]
    | none => [])

/-- `scrollToBottom` (src/index.js lines 400-406); returns `this`. -/
def scrollToBottom {α : Type} (self : α) (contentEl : Option ContentMetrics) : α × List DomAction :=
  (self, match contentEl with
    | some c => [DomAction.writeScrollTop (.num c.scrollHeight)]
    | none => [])

/-- `scrollToLeft` (src/index.js lines 413-419); returns `this`. -/
def scrollToLeft {α : Type} (self : α) (contentEl : Option ContentMetrics) : α × List DomAction :=
  (self, match contentEl with
    | some _ => [DomAction.writeScrollLeft (.num 0)]
    | none => [])

/-- `scrollToRight` (src/index.js lines 426-432); returns `this`. -/
def scrollToRight {α : Type} (self : α) (contentEl : Option ContentMetrics) : α × List DomAction :=
  (self, match contentEl with
    | some c => [DomAction.writeScrollLeft (.num c.scrollWidth)]
    | none => [])

/-- The axis tag of a gesture event. -/
inductive Axis where
  | x
  | y
  deriving DecidableEq, Repr

/-- The trackClickBehavior prop (jump or step). -/
inductive TrackClickBehavior where
  | jump
  | step
  deriving DecidableEq, Repr

/-- `handleTrackClick` (src/index.js lines 595-631).  The geometry of
the clicked axis (track inner length, thumb length) is read from the
rendered elements, given here as data. -/
def handleTrackClick (behavior : TrackClickBehavior) (hasOnClickX hasOnClickY : Bool)
    (c : ContentMetrics) (trackXInnerWidth trackYInnerHeight : ℚ)
    (thumbXClientWidth thumbYClientHeight : ℚ) (axis : Axis) (offset : ℚ) : List DomAction :=
  let notifies :=
    match axis with
    | .x => if hasOnClickX then [DomAction.notifyTrackXClick] else []
    | .y => if hasOnClickY then [DomAction.notifyTrackYClick] else []
  let scrollTarget :=
    match axis with
    | .x => computeScrollForOffset (.num trackXInnerWidth) (.num thumbXClientWidth)
        (.num offset) (.num c.scrollWidth) (.num c.clientWidth)
    | .y => computeScrollForOffset (.num trackYInnerHeight) (.num thumbYClientHeight)
        (.num offset) (.num c.scrollHeight) (.num c.clientHeight)
  notifies ++
  match behavior, axis with
  | .jump, .x => [DomAction.writeScrollLeft scrollTarget]
  | .jump, .y => [DomAction.writeScrollTop scrollTarget]
  | .step, .x =>
    [DomAction.writeScrollLeft (.num
      (if JSNum.jslt (.num c.scrollLeft) scrollTarget then c.scrollLeft + c.clientWidth
       else c.scrollLeft - c.clientWidth))]
  | .step, .y =>
    [DomAction.writeScrollTop (.num
      (if JSNum.jslt (.num c.scrollTop) scrollTarget then c.scrollTop + c.clientHeight
       else c.scrollTop - c.clientHeight))]

/-- `handleThumbDrag` (src/index.js lines 643-668): signals scroll
activity, then maps the drag offset directly through
computeScrollForOffset onto the dragged axis. -/
def handleThumbDrag (hasOnDragX hasOnDragY : Bool) (c : ContentMetrics)
    (trackXInnerWidth trackYInnerHeight : ℚ) (thumbXClientWidth thumbYClientHeight : ℚ)
    (axis : Axis) (offset : ℚ) : List DomAction :=
  DomAction.scrollDetectSignal ::
  match axis with
  | .x =>
    (if hasOnDragX then [DomAction.notifyThumbXDrag] else []) ++
    [DomAction.writeScrollLeft (computeScrollForOffset (.num trackXInnerWidth)
      (.num thumbXClientWidth) (.num offset) (.num c.scrollWidth) (.num c.clientWidth))]
  | .y =>
    (if hasOnDragY then [DomAction.notifyThumbYDrag] else []) ++
    [DomAction.writeScrollTop (computeScrollForOffset (.num trackYInnerHeight)
      (.num thumbYClientHeight) (.num offset) (.num c.scrollHeight) (.num c.clientHeight))]

/-!
## The scroll activity detector

`scrollDetect` (src/index.js lines 271-286) debounces scroll signals:
a start notification on a signal with no timer pending, a restarted
timer on every signal, and a stop notification when the timer elapses.
We model the pending timer as an optional absolute deadline and a
burst as a list of signal timestamps.
-/

/-- A scroll activity notification. -/
inductive ScrollNotification where
  | start
  | stop
  deriving DecidableEq, Repr

/-- One invocation of `scrollDetect` at time `t`: a no-op when neither
callback is configured; otherwise fires start when no timer is pending
and (re)sets the timer to `t + threshold`. -/
def scrollDetectStep (hasStart hasStop : Bool) (threshold : ℚ) (pending : Option ℚ)
    (t : ℚ) : Option ℚ × List ScrollNotification :=
  if hasStart = false ∧ hasStop = false then (pending, [])
  else (some (t + threshold),
    if pending = none ∧ hasStart = true then [ScrollNotification.start] else [])

/-- The timeout callback (src/index.js lines 282-285): clears the
pending timer and fires stop when configured. -/
def scrollDetectFire (hasStop : Bool) : Option ℚ × List ScrollNotification :=
  (none, if hasStop then [ScrollNotification.stop] else [])

/-- Process a time-ordered list of scroll signals, firing the pending
timer first whenever its deadline has passed. -/
def scrollDetectRun (hasStart hasStop : Bool) (threshold : ℚ) :
    Option ℚ → List ℚ → Option ℚ × List ScrollNotification
  | pending, [] => (pending, [])
  | pending, t :: ts =>
    match pending with
    | some deadline =>
      if deadline ≤ t then
        let f := scrollDetectFire hasStop
        let s := scrollDetectStep hasStart hasStop threshold f.1 t
        let r := scrollDetectRun hasStart hasStop threshold s.1 ts
        (r.1, f.2 ++ s.2 ++ r.2)
      else
        let s := scrollDetectStep hasStart hasStop threshold (some deadline) t
        let r := scrollDetectRun hasStart hasStop threshold s.1 ts
        (r.1, s.2 ++ r.2)
    | none =>
      let s := scrollDetectStep hasStart hasStop threshold none t
      let r := scrollDetectRun hasStart hasStop threshold s.1 ts
      (r.1, s.2 ++ r.2)

/-- After the last signal, let any pending timer elapse. -/
def scrollDetectFinish (hasStop : Bool) : Option ℚ → List ScrollNotification
  | some _ => if hasStop then [ScrollNotification.stop] else []
  | none => []

/-- The notifications produced by a whole burst of signals starting
from an idle detector, the final timer included. -/
def scrollDetectBurst (hasStart hasStop : Bool) (threshold : ℚ)
    (times : List ℚ) : List ScrollNotification :=
  let r := scrollDetectRun hasStart hasStop threshold none times
  r.2 ++ scrollDetectFinish hasStop r.1

/-!
## Concrete instances used to witness the theorems below
-/

/-- A concrete viewport: 100x100 viewport over 500x500 content, at the
origin. -/
def cIdle : ContentMetrics :=
  { clientHeight := 100, clientWidth := 100, scrollHeight := 500,
    scrollWidth := 500, scrollTop := 0, scrollLeft := 0 }

/-- A concrete viewport whose scrollLeft puts the X thumb at raw offset
10 (scrollLeft / 400 * 70 = 10). -/
def cRtl : ContentMetrics :=
  { clientHeight := 100, clientWidth := 100, scrollHeight := 500,
    scrollWidth := 500, scrollTop := 0, scrollLeft := 400 / 7 }

/-- Default-like props. -/
def pDefault : Props :=
  { noScroll := false, noScrollX := false, noScrollY := false,
    permanentTracks := false, permanentTrackX := false, permanentTrackY := false,
    minimalThumbsSize := 30, translateContentSizesToHolder := false,
    onScroll := false }

/-- Component state with a resolved left-to-right orientation. -/
def stLtr : CState := { trackYVisible := true, trackXVisible := true, isRtl := some false }

/-- The initial all-null ScrollValues record. -/
def svInit : ScrollValues :=
  { clientHeight := none, clientWidth := none, scrollHeight := none, scrollWidth := none,
    scrollTop := none, scrollLeft := none, scrollYBlocked := none, scrollXBlocked := none,
    scrollYPossible := none, scrollXPossible := none, trackYVisible := none,
    trackXVisible := none, isRtl := none }

/-!
## Basic lemmas about the JavaScript number operations
-/

lemma jsOrZero_num (q : ℚ) : JSNum.jsOrZero (.num q) = .num q := by
  by_cases h : q = 0 <;> simp [JSNum.jsOrZero, JSNum.truthy, h]

lemma jsOrZero_ne_nan (x : JSNum) : JSNum.jsOrZero x ≠ JSNum.nan := by
  cases x with
  | num q => rw [jsOrZero_num]; simp
  | inf => simp [JSNum.jsOrZero, JSNum.truthy]
  | negInf => simp [JSNum.jsOrZero, JSNum.truthy]
  | nan => simp [JSNum.jsOrZero, JSNum.truthy]

lemma jsmax_num_ne_nan (x : JSNum) (m : ℚ) (hx : x ≠ JSNum.nan) :
    JSNum.jsmax x (.num m) ≠ JSNum.nan := by
  cases x <;> simp_all [JSNum.jsmax]

lemma computeThumbSize_num_ne_nan (a b c : JSNum) (m : ℚ) :
    computeThumbSize a b c (.num m) ≠ JSNum.nan := by
  by_cases h : JSNum.jseq a (JSNum.jsOrZero (JSNum.jsceil (JSNum.jsmul (JSNum.jsdiv c b) a))) = true
  · simp [computeThumbSize, h]
  · simp only [computeThumbSize, h, if_false, Bool.false_eq_true, if_neg]
    exact jsmax_num_ne_nan _ m (jsOrZero_ne_nan _)

/-- Value of computeThumbOffset when the denominator is nonzero. -/
lemma thumbOffset_num (T t S V s : ℚ) (h : S ≠ V) :
    computeThumbOffset (.num T) (.num t) (.num S) (.num V) (.num s)
      = .num (if t = 0 then 0 else s / (S - V) * (T - t)) := by
  have hSV : S - V ≠ 0 := sub_ne_zero.mpr h
  by_cases ht : t = 0
  · simp [computeThumbOffset, JSNum.jsand, JSNum.truthy, ht, JSNum.jsOrZero]
  · simp [computeThumbOffset, JSNum.jssub, JSNum.jsdiv, hSV, JSNum.jsmul, JSNum.jsand,
      JSNum.truthy, ht, jsOrZero_num]

/-- Value of computeScrollForOffset when the denominator is nonzero. -/
lemma scrollForOffset_num (T t o S V : ℚ) (h : T ≠ t) :
    computeScrollForOffset (.num T) (.num t) (.num o) (.num S) (.num V)
      = .num ((o - t / 2) / (T - t) * (S - V)) := by
  have hTt : T - t ≠ 0 := sub_ne_zero.mpr h
  norm_num [computeScrollForOffset, JSNum.jssub, JSNum.jsdiv, hTt, JSNum.jsmul, jsOrZero_num]

/-- Value of computeThumbSize when the denominator is nonzero. -/
lemma thumbSize_num (T S V m : ℚ) (h : S ≠ 0) :
    computeThumbSize (.num T) (.num S) (.num V) (.num m)
      = if T = (⌈V / S * T⌉ : ℚ) then .num 0 else .num (max (⌈V / S * T⌉ : ℚ) m) := by
  simp [computeThumbSize, JSNum.jsdiv, h, JSNum.jsmul, JSNum.jsceil, jsOrZero_num,
    JSNum.jseq, JSNum.jsmax]

/-- Full characterization of computeThumbOffset at a zero denominator
(scrollableSize = viewportSize): 0 exactly when the scroll value, the
thumb size, or the track-minus-thumb factor vanishes; an infinity
otherwise (the falsy fallback does not catch infinities). -/
lemma thumbOffset_den_zero (T t S s : ℚ) :
    (computeThumbOffset (.num T) (.num t) (.num S) (.num S) (.num s) = .num 0
       ∨ computeThumbOffset (.num T) (.num t) (.num S) (.num S) (.num s) = .inf
       ∨ computeThumbOffset (.num T) (.num t) (.num S) (.num S) (.num s) = .negInf)
  ∧ (computeThumbOffset (.num T) (.num t) (.num S) (.num S) (.num s) = .num 0
       ↔ s = 0 ∨ t = 0 ∨ T = t) := by
  have key : computeThumbOffset (.num T) (.num t) (.num S) (.num S) (.num s)
      = if s = 0 ∨ t = 0 ∨ T = t then .num 0
        else if (0 < s ∧ t < T) ∨ (s < 0 ∧ T < t) then .inf else .negInf := by
    by_cases ht : t = 0
    · simp [computeThumbOffset, JSNum.jsand, JSNum.truthy, ht, JSNum.jsOrZero]
    · by_cases hs : s = 0
      · simp [computeThumbOffset, JSNum.jssub, sub_self, JSNum.jsdiv, JSNum.jsmul,
          JSNum.jsand, JSNum.truthy, ht, hs, JSNum.jsOrZero]
      · by_cases hT : T = t
        · rcases lt_trichotomy s 0 with h1 | h1 | h1
          · simp [computeThumbOffset, JSNum.jssub, sub_self, JSNum.jsdiv, JSNum.jsmul,
              JSNum.jsand, JSNum.truthy, ht, hs, hT, h1.asymm, JSNum.jsOrZero]
          · exact absurd h1 hs
          · simp [computeThumbOffset, JSNum.jssub, sub_self, JSNum.jsdiv, JSNum.jsmul,
              JSNum.jsand, JSNum.truthy, ht, hs, hT, h1, JSNum.jsOrZero]
        · rcases lt_trichotomy s 0 with h1 | h1 | h1
          · rcases lt_trichotomy T t with h2 | h2 | h2
            · have h3 : T - t < 0 := sub_neg.mpr h2
              simp [computeThumbOffset, JSNum.jssub, sub_self, JSNum.jsdiv, JSNum.jsmul,
                JSNum.jsand, JSNum.truthy, ht, hs, hT, h1, h1.asymm, h2, h2.asymm, h3,
                h3.ne, h3.asymm, JSNum.jsOrZero]
            · exact absurd h2 hT
            · have h3 : 0 < T - t := sub_pos.mpr h2
              simp [computeThumbOffset, JSNum.jssub, sub_self, JSNum.jsdiv, JSNum.jsmul,
                JSNum.jsand, JSNum.truthy, ht, hs, hT, h1, h1.asymm, h2, h2.asymm, h3,
                h3.ne', JSNum.jsOrZero]
          · exact absurd h1 hs
          · rcases lt_trichotomy T t with h2 | h2 | h2
            · have h3 : T - t < 0 := sub_neg.mpr h2
              simp [computeThumbOffset, JSNum.jssub, sub_self, JSNum.jsdiv, JSNum.jsmul,
                JSNum.jsand, JSNum.truthy, ht, hs, hT, h1, h1.ne', h1.asymm, h2, h2.asymm,
                h3, h3.ne, h3.asymm, JSNum.jsOrZero]
            · exact absurd h2 hT
            · have h3 : 0 < T - t := sub_pos.mpr h2
              simp [computeThumbOffset, JSNum.jssub, sub_self, JSNum.jsdiv, JSNum.jsmul,
                JSNum.jsand, JSNum.truthy, ht, hs, hT, h1, h1.ne', h1.asymm, h2, h2.asymm,
                h3, h3.ne', JSNum.jsOrZero]
  rw [key]
  by_cases hc : s = 0 ∨ t = 0 ∨ T = t
  · simp [hc]
  · simp only [if_neg hc]
    constructor
    · split <;> simp
    · split <;> simp [hc]

/-- Full characterization of computeScrollForOffset at a zero
denominator (trackSize = thumbSize). -/
lemma scrollForOffset_den_zero (T o S V : ℚ) :
    (computeScrollForOffset (.num T) (.num T) (.num o) (.num S) (.num V) = .num 0
       ∨ computeScrollForOffset (.num T) (.num T) (.num o) (.num S) (.num V) = .inf
       ∨ computeScrollForOffset (.num T) (.num T) (.num o) (.num S) (.num V) = .negInf)
  ∧ (computeScrollForOffset (.num T) (.num T) (.num o) (.num S) (.num V) = .num 0
       ↔ o = T / 2 ∨ S = V) := by
  have h2 : (2:ℚ) ≠ 0 := by norm_num
  have key : computeScrollForOffset (.num T) (.num T) (.num o) (.num S) (.num V)
      = if o = T / 2 ∨ S = V then .num 0
        else if (T / 2 < o ∧ V < S) ∨ (o < T / 2 ∧ S < V) then .inf else .negInf := by
    by_cases ho : o = T / 2
    · by_cases hSV : S = V
      · simp [computeScrollForOffset, JSNum.jssub, JSNum.jsdiv, h2, sub_self, ho, hSV,
          JSNum.jsmul, JSNum.jsOrZero, JSNum.truthy]
      · simp [computeScrollForOffset, JSNum.jssub, JSNum.jsdiv, h2, sub_self, ho, hSV,
          JSNum.jsmul, JSNum.jsOrZero, JSNum.truthy]
    · have hon : o - T / 2 ≠ 0 := sub_ne_zero.mpr ho
      by_cases hSV : S = V
      · rcases lt_trichotomy o (T / 2) with h1 | h1 | h1
        · have h3 : o - T / 2 < 0 := sub_neg.mpr h1
          simp [computeScrollForOffset, JSNum.jssub, JSNum.jsdiv, h2, sub_self, hSV,
            JSNum.jsmul, h3.ne, h3.asymm, JSNum.jsOrZero, JSNum.truthy]
        · exact absurd h1 ho
        · have h3 : 0 < o - T / 2 := sub_pos.mpr h1
          simp [computeScrollForOffset, JSNum.jssub, JSNum.jsdiv, h2, sub_self, hSV,
            JSNum.jsmul, h3.ne', h3, JSNum.jsOrZero, JSNum.truthy]
      · have hsv : S - V ≠ 0 := sub_ne_zero.mpr hSV
        rcases lt_trichotomy o (T / 2) with h1 | h1 | h1
        · have h3 : o - T / 2 < 0 := sub_neg.mpr h1
          rcases lt_trichotomy S V with h4 | h4 | h4
          · have h5 : S - V < 0 := sub_neg.mpr h4
            simp [computeScrollForOffset, JSNum.jssub, JSNum.jsdiv, h2, sub_self, ho, hSV,
              JSNum.jsmul, h1, h1.asymm, h3.ne, h3.asymm, h4, h4.asymm, h5.ne, h5.asymm,
              JSNum.jsOrZero, JSNum.truthy]
          · exact absurd h4 hSV
          · have h5 : 0 < S - V := sub_pos.mpr h4
            simp [computeScrollForOffset, JSNum.jssub, JSNum.jsdiv, h2, sub_self, ho, hSV,
              JSNum.jsmul, h1, h1.asymm, h3.ne, h3.asymm, h4, h4.asymm, h5.ne', h5,
              JSNum.jsOrZero, JSNum.truthy]
        · exact absurd h1 ho
        · have h3 : 0 < o - T / 2 := sub_pos.mpr h1
          rcases lt_trichotomy S V with h4 | h4 | h4
          · have h5 : S - V < 0 := sub_neg.mpr h4
            simp [computeScrollForOffset, JSNum.jssub, JSNum.jsdiv, h2, sub_self, ho, hSV,
              JSNum.jsmul, h1, h1.asymm, h3.ne', h3, h4, h4.asymm, h5.ne, h5.asymm,
              JSNum.jsOrZero, JSNum.truthy]
          · exact absurd h4 hSV
          · have h5 : 0 < S - V := sub_pos.mpr h4
            simp [computeScrollForOffset, JSNum.jssub, JSNum.jsdiv, h2, sub_self, ho, hSV,
              JSNum.jsmul, h1, h1.asymm, h3.ne', h3, h4, h4.asymm, h5.ne', h5,
              JSNum.jsOrZero, JSNum.truthy]
  rw [key]
  by_cases hc : o = T / 2 ∨ S = V
  · simp [hc]
  · simp only [if_neg hc]
    constructor
    · split <;> simp
    · split <;> simp [hc]

/-- computeThumbSize at a zero denominator with positive viewport and
track: the division yields +Infinity, which survives the falsy
fallback and the max. -/
lemma thumbSize_den_zero_pos (T V m : ℚ) (hT : 0 < T) (hV : 0 < V) :
    computeThumbSize (.num T) (.num 0) (.num V) (.num m) = .inf := by
  simp [computeThumbSize, JSNum.jsdiv, hV.ne', hV, JSNum.jsmul, hT.ne', hT, JSNum.jsceil,
    JSNum.jsOrZero, JSNum.truthy, JSNum.jseq, JSNum.jsmax]

/-- computeThumbSize at 0/0: NaN collapses to 0 via the fallback, then
the minimal-size clamp applies. -/
lemma thumbSize_den_zero_zero (T m : ℚ) (hT : T ≠ 0) :
    computeThumbSize (.num T) (.num 0) (.num 0) (.num m) = .num (max 0 m) := by
  simp [computeThumbSize, JSNum.jsdiv, JSNum.jsmul, JSNum.jsceil, JSNum.jsOrZero,
    JSNum.truthy, JSNum.jseq, hT, JSNum.jsmax]

/-!
## Claims about the geometry functions (C1, C2, C3)
-/

/-- Claim C1, counterexample.  The claim states that the three geometry
functions never return a non-finite value and fall back to 0 whenever
their denominator is zero.  In fact the `|| 0` fallback only catches
NaN (which is falsy); an infinity is truthy and passes through: each
function returns +Infinity on a concrete zero-denominator input. -/
theorem claimC1_counterexample :
    computeThumbOffset (.num 100) (.num 30) (.num 100) (.num 100) (.num 50) = .inf
  ∧ computeScrollForOffset (.num 30) (.num 30) (.num 100) (.num 500) (.num 100) = .inf
  ∧ computeThumbSize (.num 100) (.num 0) (.num 100) (.num 30) = .inf := by
  refine ⟨?_, ?_, ?_⟩
  · norm_num [computeThumbOffset, JSNum.jsdiv, JSNum.jsmul, JSNum.jssub, JSNum.jsand,
      JSNum.jsOrZero, JSNum.truthy]
  · norm_num [computeScrollForOffset, JSNum.jsdiv, JSNum.jsmul, JSNum.jssub,
      JSNum.jsOrZero, JSNum.truthy]
  · norm_num [computeThumbSize, JSNum.jsdiv, JSNum.jsmul, JSNum.jsceil, JSNum.jsOrZero,
      JSNum.truthy, JSNum.jseq, JSNum.jsmax]

/-- Claim C1, amended.  The geometry functions never return NaN, and
return a finite value whenever their denominator is nonzero; at a zero
denominator the falsy fallback yields 0 exactly when the division (or a
factor) degenerates to NaN or zero, and otherwise the result is an
infinity that passes through the fallback: computeThumbOffset at
scrollableSize = viewportSize is 0 iff the scroll value or thumb size
is 0 or the track equals the thumb; computeScrollForOffset at
trackSize = thumbSize is 0 iff the offset is half the thumb or the
scrollable range is zero; computeThumbSize at scrollableSize = 0
returns +Infinity for a positive viewport and max(0, minimalSize) for a
zero viewport. -/
theorem claimC1_amended (T t S V s o m : ℚ) (hT : 0 < T) :
    (computeThumbOffset (.num T) (.num t) (.num S) (.num V) (.num s) ≠ JSNum.nan
       ∧ computeScrollForOffset (.num T) (.num t) (.num o) (.num S) (.num V) ≠ JSNum.nan
       ∧ computeThumbSize (.num T) (.num S) (.num V) (.num m) ≠ JSNum.nan)
  ∧ (S ≠ V → ∃ q : ℚ, computeThumbOffset (.num T) (.num t) (.num S) (.num V) (.num s) = .num q)
  ∧ (T ≠ t → ∃ q : ℚ, computeScrollForOffset (.num T) (.num t) (.num o) (.num S) (.num V) = .num q)
  ∧ (S ≠ 0 → ∃ q : ℚ, computeThumbSize (.num T) (.num S) (.num V) (.num m) = .num q)
  ∧ (S = V →
      ((computeThumbOffset (.num T) (.num t) (.num S) (.num V) (.num s) = .num 0
          ∨ computeThumbOffset (.num T) (.num t) (.num S) (.num V) (.num s) = .inf
          ∨ computeThumbOffset (.num T) (.num t) (.num S) (.num V) (.num s) = .negInf)
        ∧ (computeThumbOffset (.num T) (.num t) (.num S) (.num V) (.num s) = .num 0
            ↔ s = 0 ∨ t = 0 ∨ T = t)))
  ∧ (T = t →
      ((computeScrollForOffset (.num T) (.num t) (.num o) (.num S) (.num V) = .num 0
          ∨ computeScrollForOffset (.num T) (.num t) (.num o) (.num S) (.num V) = .inf
          ∨ computeScrollForOffset (.num T) (.num t) (.num o) (.num S) (.num V) = .negInf)
        ∧ (computeScrollForOffset (.num T) (.num t) (.num o) (.num S) (.num V) = .num 0
            ↔ o = t / 2 ∨ S = V)))
  ∧ (S = 0 →
      ((0 < V → computeThumbSize (.num T) (.num S) (.num V) (.num m) = .inf)
        ∧ (V = 0 → computeThumbSize (.num T) (.num S) (.num V) (.num m) = .num (max 0 m)))) := by
  refine ⟨⟨?_, ?_, ?_⟩, ?_, ?_, ?_, ?_, ?_, ?_⟩
  · unfold computeThumbOffset; exact jsOrZero_ne_nan _
  · unfold computeScrollForOffset; exact jsOrZero_ne_nan _
  · exact computeThumbSize_num_ne_nan _ _ _ m
  · intro h
    exact ⟨_, thumbOffset_num T t S V s h⟩
  · intro h
    exact ⟨_, scrollForOffset_num T t o S V h⟩
  · intro h
    rw [thumbSize_num T S V m h]
    by_cases hc : T = (⌈V / S * T⌉ : ℚ)
    · exact ⟨0, by rw [if_pos hc]⟩
    · exact ⟨_, by rw [if_neg hc]⟩
  · intro h
    rw [← h]
    exact thumbOffset_den_zero T t S s
  · intro h
    rw [h]
    exact scrollForOffset_den_zero t o S V
  · intro h
    rw [h]
    exact ⟨fun hV => thumbSize_den_zero_pos T V m hT hV,
      fun hV0 => by rw [hV0]; exact thumbSize_den_zero_zero T m hT.ne'⟩

/-- Witness for claimC1_amended at a concrete zero-denominator input. -/
theorem claimC1_witness :
    0 < (100 : ℚ)
  ∧ (computeThumbOffset (.num 100) (.num 30) (.num 100) (.num 100) (.num 50) = .num 0
      ↔ (50 : ℚ) = 0 ∨ (30 : ℚ) = 0 ∨ (100 : ℚ) = 30) := by
  refine ⟨by norm_num, ?_⟩
  exact ((claimC1_amended 100 30 100 100 50 0 30 (by norm_num)).2.2.2.2.1 rfl).2

/-- Claim C2, counterexample.  The claim states that feeding a thumb
offset back through computeScrollForOffset reproduces the original
scroll value up to the rounding tolerance of the ceil.  On the spec's
own example geometry (track 100, thumb 30, content 500, viewport 100,
scroll 200) the round trip gives 800/7 = 114.28..., off by more than
85 pixels in exact arithmetic (there is no rounding in this
composition at all): computeScrollForOffset recenters by half the
thumb, a systematic shift, not a rounding error. -/
theorem claimC2_counterexample :
    computeThumbOffset (.num 100) (.num 30) (.num 500) (.num 100) (.num 200) = .num 35
  ∧ computeScrollForOffset (.num 100) (.num 30) (.num 35) (.num 500) (.num 100) = .num (800 / 7)
  ∧ (800 / 7 : ℚ) ≠ 200
  ∧ (200 : ℚ) - 800 / 7 > 85 := by
  refine ⟨?_, ?_, by norm_num, by norm_num⟩
  · norm_num [computeThumbOffset, JSNum.jsdiv, JSNum.jsmul, JSNum.jssub, JSNum.jsand,
      JSNum.jsOrZero, JSNum.truthy]
  · norm_num [computeScrollForOffset, JSNum.jsdiv, JSNum.jsmul, JSNum.jssub,
      JSNum.jsOrZero, JSNum.truthy]

/-- Claim C2, amended.  For a non-degenerate geometry the round trip is
exact, but shifted: computeScrollForOffset applied to the raw thumb
offset returns scrollValue - (thumbSize/2) * (scrollableSize -
viewportSize) / (trackSize - thumbSize); equivalently, adding half the
thumb size to the offset before the inverse map reproduces the
original scroll value exactly (no rounding tolerance is involved). -/
theorem claimC2_amended (T t S V s o : ℚ) (hSV : S ≠ V) (hTt : T ≠ t) (ht : t ≠ 0)
    (ho : computeThumbOffset (.num T) (.num t) (.num S) (.num V) (.num s) = .num o) :
    computeScrollForOffset (.num T) (.num t) (.num (o + t / 2)) (.num S) (.num V) = .num s
  ∧ computeScrollForOffset (.num T) (.num t) (.num o) (.num S) (.num V)
      = .num (s - t / 2 * ((S - V) / (T - t))) := by
  have hSV' : S - V ≠ 0 := sub_ne_zero.mpr hSV
  have hTt' : T - t ≠ 0 := sub_ne_zero.mpr hTt
  rw [thumbOffset_num T t S V s hSV, if_neg ht, JSNum.num.injEq] at ho
  subst ho
  constructor
  · rw [scrollForOffset_num _ _ _ _ _ hTt]
    congr 1
    field_simp
    ring
  · rw [scrollForOffset_num _ _ _ _ _ hTt]
    congr 1
    field_simp
    ring

/-- Witness for claimC2_amended on the spec's example geometry. -/
theorem claimC2_witness :
    computeThumbOffset (.num 100) (.num 30) (.num 500) (.num 100) (.num 200) = .num 35
  ∧ computeScrollForOffset (.num 100) (.num 30) (.num (35 + 30 / 2)) (.num 500) (.num 100)
      = .num 200 := by
  have h : computeThumbOffset (.num 100) (.num 30) (.num 500) (.num 100) (.num 200)
      = .num 35 := by
    norm_num [computeThumbOffset, JSNum.jsdiv, JSNum.jsmul, JSNum.jssub, JSNum.jsand,
      JSNum.jsOrZero, JSNum.truthy]
  exact ⟨h, (claimC2_amended 100 30 500 100 200 35 (by norm_num) (by norm_num)
    (by norm_num) h).1⟩

/-- Claim C3, counterexample.  The claim states computeThumbSize
returns 0 when scrollableSize is 0; in fact viewportSize / 0 is
+Infinity in JavaScript, which the falsy `|| 0` fallback does not
catch, so the function returns +Infinity. -/
theorem claimC3_counterexample :
    computeThumbSize (.num 100) (.num 0) (.num 100) (.num 30) = .inf
  ∧ ¬ computeThumbSize (.num 100) (.num 0) (.num 100) (.num 30) = .num 0 := by
  have h : computeThumbSize (.num 100) (.num 0) (.num 100) (.num 30) = .inf := by
    norm_num [computeThumbSize, JSNum.jsdiv, JSNum.jsmul, JSNum.jsceil, JSNum.jsOrZero,
      JSNum.truthy, JSNum.jseq, JSNum.jsmax]
  exact ⟨h, by rw [h]; simp⟩

/-- Claim C3, amended.  For nonzero scrollableSize, computeThumbSize
returns 0 when ceil(trackSize * viewportSize / scrollableSize) equals
trackSize and max(ceil(...), minimalSize) otherwise; when
scrollableSize is 0 the result is not 0: it is +Infinity for positive
viewportSize (and positive trackSize), and max(0, minimalSize) when
viewportSize is also 0.  The claim's concrete examples hold:
computeThumbSize(100, 500, 100, 30) = 30 and
computeThumbSize(100, 100, 100, 30) = 0. -/
theorem claimC3_amended (T S V m : ℚ) (hT : 0 < T) :
    (S ≠ 0 → computeThumbSize (.num T) (.num S) (.num V) (.num m)
        = if T = (⌈V / S * T⌉ : ℚ) then .num 0 else .num (max (⌈V / S * T⌉ : ℚ) m))
  ∧ (0 < V → computeThumbSize (.num T) (.num 0) (.num V) (.num m) = .inf)
  ∧ computeThumbSize (.num T) (.num 0) (.num 0) (.num m) = .num (max 0 m)
  ∧ computeThumbSize (.num 100) (.num 500) (.num 100) (.num 30) = .num 30
  ∧ computeThumbSize (.num 100) (.num 100) (.num 100) (.num 30) = .num 0 := by
  refine ⟨fun h => thumbSize_num T S V m h, fun hV => thumbSize_den_zero_pos T V m hT hV,
    thumbSize_den_zero_zero T m hT.ne', ?_, ?_⟩
  · norm_num [computeThumbSize, JSNum.jsdiv, JSNum.jsmul, JSNum.jsceil, JSNum.jsOrZero,
      JSNum.truthy, JSNum.jseq, JSNum.jsmax]
  · norm_num [computeThumbSize, JSNum.jsdiv, JSNum.jsmul, JSNum.jsceil, JSNum.jsOrZero,
      JSNum.truthy, JSNum.jseq, JSNum.jsmax]

/-- Witness for claimC3_amended at the degenerate zero-content input. -/
theorem claimC3_witness :
    0 < (100 : ℚ)
  ∧ computeThumbSize (.num 100) (.num 0) (.num 100) (.num 30) = .inf := by
  refine ⟨by norm_num, ?_⟩
  exact (claimC3_amended 100 0 100 30 (by norm_num)).2.1 (by norm_num)

/-!
## Bitmask lemmas for the change mask
-/

lemma lor_and_eq_zero {a b k : Nat} (ha : a &&& k = 0) (hb : b &&& k = 0) :
    (a ||| b) &&& k = 0 := by
  refine Nat.eq_of_testBit_eq fun i => ?_
  have ha' : (a.testBit i && k.testBit i) = false := by
    rw [← Nat.testBit_land, ha, Nat.zero_testBit]
  have hb' : (b.testBit i && k.testBit i) = false := by
    rw [← Nat.testBit_land, hb, Nat.zero_testBit]
  rw [Nat.testBit_land, Nat.testBit_lor, Nat.zero_testBit]
  cases hk : k.testBit i
  · simp
  · rw [hk] at ha' hb'
    simp only [Bool.and_true] at ha' hb'
    simp [ha', hb']

lemma ifshift_and_eq_zero (c : Prop) [Decidable c] {i j : Nat}
    (h : (1 <<< i) &&& (1 <<< j) = 0) : ((if c then 1 <<< i else 0) &&& (1 <<< j)) = 0 := by
  split
  · exact h
  · exact Nat.zero_and _

/-- When the stored and sampled track-Y visibility agree, bit 10 of the
change mask is clear. -/
lemma computeMask_bit10_eq_zero (old new : ScrollValues)
    (h : old.trackYVisible = new.trackYVisible) :
    computeMask old new &&& (1 <<< 10) = 0 := by
  unfold computeMask
  repeat' apply lor_and_eq_zero
  all_goals first
    | (apply ifshift_and_eq_zero; decide)
    | simp [h]

/-- When the stored and sampled track-X visibility agree, bit 11 of the
change mask is clear. -/
lemma computeMask_bit11_eq_zero (old new : ScrollValues)
    (h : old.trackXVisible = new.trackXVisible) :
    computeMask old new &&& (1 <<< 11) = 0 := by
  unfold computeMask
  repeat' apply lor_and_eq_zero
  all_goals first
    | (apply ifshift_and_eq_zero; decide)
    | simp [h]

lemma mask_ne_zero_of_vis {m : Nat}
    (h : m &&& (1 <<< 10) ≠ 0 ∨ m &&& (1 <<< 11) ≠ 0) : m ≠ 0 := by
  intro h0
  rcases h with h | h <;> rw [h0, Nat.zero_and] at h <;> exact h rfl

/-!
## Claims about the synchronization pass (C4, C5)
-/

/-- Claim C4: a synchronization pass whose change mask (between the
freshly sampled metrics and the stored snapshot) is all-zero, with the
forced flag false, returns the stored snapshot unchanged, leaves the
component state and stored snapshot untouched, and performs no side
effects at all. -/
theorem claimC4_noop (p : Props) (c : ContentMetrics) (trackY trackX : Option ℚ)
    (wrapperEl computedRtl : Bool) (fuel : Nat) (st : CState) (sv : ScrollValues) (b : Bool)
    (hrtl : st.isRtl = some b)
    (hmask : computeMask sv (sampleScrollValues p c b) = 0) :
    updateGo p c trackY trackX wrapperEl computedRtl fuel false st sv = (st, sv, sv, []) := by
  obtain ⟨sy, sx, sr⟩ := st
  obtain rfl : sr = some b := hrtl
  rw [updateGo]
  simp [hmask]

/-- Witness for claimC4_noop: an idle viewport sampled twice in a row. -/
theorem claimC4_witness :
    computeMask (sampleScrollValues pDefault cIdle false) (sampleScrollValues pDefault cIdle false) = 0
  ∧ updateGo pDefault cIdle (some 92) (some 92) false false 2 false stLtr
      (sampleScrollValues pDefault cIdle false)
      = (stLtr, sampleScrollValues pDefault cIdle false, sampleScrollValues pDefault cIdle false, []) := by
  have h : computeMask (sampleScrollValues pDefault cIdle false)
      (sampleScrollValues pDefault cIdle false) = 0 := by
    simp [computeMask]
  exact ⟨h, claimC4_noop pDefault cIdle (some 92) (some 92) false false 2 stLtr
    (sampleScrollValues pDefault cIdle false) false rfl h⟩

/-- Claim C5: when either track-visibility bit of the change mask is
set, the pass commits only the two visibility fields into the stored
snapshot (every other field of the stored snapshot is untouched),
requests the visibility toggle (the setState effect), and re-runs
itself with forced = true; that forced re-run then commits the full
fresh snapshot (recomputing thumb geometry against the new
visibility), so the pass ends with the sampled snapshot stored. -/
theorem claimC5_visibility (p : Props) (c : ContentMetrics) (trackY trackX : Option ℚ)
    (wrapperEl computedRtl : Bool) (fuel : Nat) (forced : Bool) (st : CState)
    (sv : ScrollValues) (b : Bool) (hrtl : st.isRtl = some b)
    (hvis : computeMask sv (sampleScrollValues p c b) &&& (1 <<< 10) ≠ 0
          ∨ computeMask sv (sampleScrollValues p c b) &&& (1 <<< 11) ≠ 0) :
    updateGo p c trackY trackX wrapperEl computedRtl (fuel + 1) forced st sv
      = ((updateGo p c trackY trackX wrapperEl computedRtl fuel true
            { st with trackYVisible := optB (sampleScrollValues p c b).trackYVisible,
                      trackXVisible := optB (sampleScrollValues p c b).trackXVisible }
            { sv with trackYVisible := (sampleScrollValues p c b).trackYVisible,
                      trackXVisible := (sampleScrollValues p c b).trackXVisible }).1,
         (updateGo p c trackY trackX wrapperEl computedRtl fuel true
            { st with trackYVisible := optB (sampleScrollValues p c b).trackYVisible,
                      trackXVisible := optB (sampleScrollValues p c b).trackXVisible }
            { sv with trackYVisible := (sampleScrollValues p c b).trackYVisible,
                      trackXVisible := (sampleScrollValues p c b).trackXVisible }).2.1,
         (updateGo p c trackY trackX wrapperEl computedRtl fuel true
            { st with trackYVisible := optB (sampleScrollValues p c b).trackYVisible,
                      trackXVisible := optB (sampleScrollValues p c b).trackXVisible }
            { sv with trackYVisible := (sampleScrollValues p c b).trackYVisible,
                      trackXVisible := (sampleScrollValues p c b).trackXVisible }).2.2.1,
         Effect.setStateTrackVisible (optB (sampleScrollValues p c b).trackYVisible)
             (optB (sampleScrollValues p c b).trackXVisible)
           :: (updateGo p c trackY trackX wrapperEl computedRtl fuel true
            { st with trackYVisible := optB (sampleScrollValues p c b).trackYVisible,
                      trackXVisible := optB (sampleScrollValues p c b).trackXVisible }
            { sv with trackYVisible := (sampleScrollValues p c b).trackYVisible,
                      trackXVisible := (sampleScrollValues p c b).trackXVisible }).2.2.2)
  ∧ (updateGo p c trackY trackX wrapperEl computedRtl fuel true
        { st with trackYVisible := optB (sampleScrollValues p c b).trackYVisible,
                  trackXVisible := optB (sampleScrollValues p c b).trackXVisible }
        { sv with trackYVisible := (sampleScrollValues p c b).trackYVisible,
                  trackXVisible := (sampleScrollValues p c b).trackXVisible }).2.1
      = sampleScrollValues p c b
  ∧ ({ sv with trackYVisible := (sampleScrollValues p c b).trackYVisible,
               trackXVisible := (sampleScrollValues p c b).trackXVisible }.clientHeight
        = sv.clientHeight
     ∧ { sv with trackYVisible := (sampleScrollValues p c b).trackYVisible,
                 trackXVisible := (sampleScrollValues p c b).trackXVisible }.clientWidth
        = sv.clientWidth
     ∧ { sv with trackYVisible := (sampleScrollValues p c b).trackYVisible,
                 trackXVisible := (sampleScrollValues p c b).trackXVisible }.scrollHeight
        = sv.scrollHeight
     ∧ { sv with trackYVisible := (sampleScrollValues p c b).trackYVisible,
                 trackXVisible := (sampleScrollValues p c b).trackXVisible }.scrollWidth
        = sv.scrollWidth
     ∧ { sv with trackYVisible := (sampleScrollValues p c b).trackYVisible,
                 trackXVisible := (sampleScrollValues p c b).trackXVisible }.scrollTop
        = sv.scrollTop
     ∧ { sv with trackYVisible := (sampleScrollValues p c b).trackYVisible,
                 trackXVisible := (sampleScrollValues p c b).trackXVisible }.scrollLeft
        = sv.scrollLeft
     ∧ { sv with trackYVisible := (sampleScrollValues p c b).trackYVisible,
                 trackXVisible := (sampleScrollValues p c b).trackXVisible }.scrollYBlocked
        = sv.scrollYBlocked
     ∧ { sv with trackYVisible := (sampleScrollValues p c b).trackYVisible,
                 trackXVisible := (sampleScrollValues p c b).trackXVisible }.scrollXBlocked
        = sv.scrollXBlocked
     ∧ { sv with trackYVisible := (sampleScrollValues p c b).trackYVisible,
                 trackXVisible := (sampleScrollValues p c b).trackXVisible }.scrollYPossible
        = sv.scrollYPossible
     ∧ { sv with trackYVisible := (sampleScrollValues p c b).trackYVisible,
                 trackXVisible := (sampleScrollValues p c b).trackXVisible }.scrollXPossible
        = sv.scrollXPossible
     ∧ { sv with trackYVisible := (sampleScrollValues p c b).trackYVisible,
                 trackXVisible := (sampleScrollValues p c b).trackXVisible }.isRtl
        = sv.isRtl
     ∧ { sv with trackYVisible := (sampleScrollValues p c b).trackYVisible,
                 trackXVisible := (sampleScrollValues p c b).trackXVisible }.trackYVisible
        = (sampleScrollValues p c b).trackYVisible
     ∧ { sv with trackYVisible := (sampleScrollValues p c b).trackYVisible,
                 trackXVisible := (sampleScrollValues p c b).trackXVisible }.trackXVisible
        = (sampleScrollValues p c b).trackXVisible) := by
  obtain ⟨sy, sx, sr⟩ := st
  obtain rfl : sr = some b := hrtl
  have hm0 : ¬(computeMask sv (sampleScrollValues p c b) = 0 ∧ forced = false) :=
    fun h => mask_ne_zero_of_vis hvis h.1
  refine ⟨?_, ?_, rfl, rfl, rfl, rfl, rfl, rfl, rfl, rfl, rfl, rfl, rfl, rfl, rfl⟩
  · conv_lhs => rw [updateGo]
    simp only [if_neg hm0, if_pos hvis]
  · have h10 := computeMask_bit10_eq_zero
      { sv with trackYVisible := (sampleScrollValues p c b).trackYVisible,
                trackXVisible := (sampleScrollValues p c b).trackXVisible }
      (sampleScrollValues p c b) rfl
    have h11 := computeMask_bit11_eq_zero
      { sv with trackYVisible := (sampleScrollValues p c b).trackYVisible,
                trackXVisible := (sampleScrollValues p c b).trackXVisible }
      (sampleScrollValues p c b) rfl
    rw [show (1 <<< 10 : ℕ) = 1024 from rfl] at h10
    rw [show (1 <<< 11 : ℕ) = 2048 from rfl] at h11
    conv_lhs => rw [updateGo]
    simp [h10, h11]

/-- Witness for claimC5_visibility: first pass over a fresh instance
(all-null stored snapshot), where both visibility bits change. -/
theorem claimC5_witness :
    (computeMask svInit (sampleScrollValues pDefault cIdle false) &&& (1 <<< 10) ≠ 0
      ∨ computeMask svInit (sampleScrollValues pDefault cIdle false) &&& (1 <<< 11) ≠ 0)
  ∧ (updateGo pDefault cIdle (some 92) (some 92) false false 1 true
        { stLtr with
            trackYVisible := optB (sampleScrollValues pDefault cIdle false).trackYVisible,
            trackXVisible := optB (sampleScrollValues pDefault cIdle false).trackXVisible }
        { svInit with
            trackYVisible := (sampleScrollValues pDefault cIdle false).trackYVisible,
            trackXVisible := (sampleScrollValues pDefault cIdle false).trackXVisible }).2.1
      = sampleScrollValues pDefault cIdle false := by
  have h : computeMask svInit (sampleScrollValues pDefault cIdle false) &&& (1 <<< 10) ≠ 0
      ∨ computeMask svInit (sampleScrollValues pDefault cIdle false) &&& (1 <<< 11) ≠ 0 := by
    left
    decide
  exact ⟨h, (claimC5_visibility pDefault cIdle (some 92) (some 92) false false 1 true
    stLtr svInit false rfl h).2.1⟩

/-!
## Claims about the public setters, scroll commands, and gestures
(C6, C8, C10)
-/

/-- Claim C6, counterexample.  The claim states that setting either
scrollTop or scrollLeft triggers a synchronization pass; in fact the
scrollLeft setter (src/index.js lines 332-336) only writes the value
and never calls update. -/
theorem claimC6_counterexample :
    setScrollLeft (some cIdle) 10 = [DomAction.writeScrollLeft (.num 10)]
  ∧ DomAction.invokeUpdate ∉ setScrollLeft (some cIdle) 10 := by
  refine ⟨rfl, ?_⟩
  simp [setScrollLeft]

/-- Claim C6, amended.  Setting scrollTop writes the pixel value to the
viewport and triggers a synchronization pass; setting scrollLeft only
writes the pixel value (no update invocation). -/
theorem claimC6_amended (c : ContentMetrics) (v : ℚ) :
    setScrollTop (some c) v = [DomAction.writeScrollTop (.num v), DomAction.invokeUpdate]
  ∧ setScrollLeft (some c) v = [DomAction.writeScrollLeft (.num v)]
  ∧ DomAction.invokeUpdate ∉ setScrollLeft (some c) v := by
  refine ⟨rfl, rfl, ?_⟩
  simp [setScrollLeft]

/-- Claim C8: on a track click, "jump" writes the target computed by
computeScrollForOffset directly to the clicked axis, while "step"
moves the scroll position by exactly one viewport length toward the
target, the direction decided by comparing the current position with
the target (a single page step regardless of the distance). -/
theorem claimC8_trackClick (hasOnClickX hasOnClickY : Bool) (c : ContentMetrics)
    (tXW tYH thXW thYH offset : ℚ) :
    handleTrackClick .jump hasOnClickX hasOnClickY c tXW tYH thXW thYH .x offset
      = (if hasOnClickX then [DomAction.notifyTrackXClick] else [])
        ++ [DomAction.writeScrollLeft (computeScrollForOffset (.num tXW) (.num thXW)
              (.num offset) (.num c.scrollWidth) (.num c.clientWidth))]
  ∧ handleTrackClick .jump hasOnClickX hasOnClickY c tXW tYH thXW thYH .y offset
      = (if hasOnClickY then [DomAction.notifyTrackYClick] else [])
        ++ [DomAction.writeScrollTop (computeScrollForOffset (.num tYH) (.num thYH)
              (.num offset) (.num c.scrollHeight) (.num c.clientHeight))]
  ∧ handleTrackClick .step hasOnClickX hasOnClickY c tXW tYH thXW thYH .x offset
      = (if hasOnClickX then [DomAction.notifyTrackXClick] else [])
        ++ [DomAction.writeScrollLeft (.num
              (if JSNum.jslt (.num c.scrollLeft) (computeScrollForOffset (.num tXW)
                    (.num thXW) (.num offset) (.num c.scrollWidth) (.num c.clientWidth))
               then c.scrollLeft + c.clientWidth else c.scrollLeft - c.clientWidth))]
  ∧ handleTrackClick .step hasOnClickX hasOnClickY c tXW tYH thXW thYH .y offset
      = (if hasOnClickY then [DomAction.notifyTrackYClick] else [])
        ++ [DomAction.writeScrollTop (.num
              (if JSNum.jslt (.num c.scrollTop) (computeScrollForOffset (.num tYH)
                    (.num thYH) (.num offset) (.num c.scrollHeight) (.num c.clientHeight))
               then c.scrollTop + c.clientHeight else c.scrollTop - c.clientHeight))]
  ∧ ((if JSNum.jslt (.num c.scrollLeft) (computeScrollForOffset (.num tXW) (.num thXW)
          (.num offset) (.num c.scrollWidth) (.num c.clientWidth))
      then c.scrollLeft + c.clientWidth else c.scrollLeft - c.clientWidth)
        - c.scrollLeft = c.clientWidth
     ∨ (if JSNum.jslt (.num c.scrollLeft) (computeScrollForOffset (.num tXW) (.num thXW)
          (.num offset) (.num c.scrollWidth) (.num c.clientWidth))
      then c.scrollLeft + c.clientWidth else c.scrollLeft - c.clientWidth)
        - c.scrollLeft = -c.clientWidth) := by
  refine ⟨rfl, rfl, rfl, rfl, ?_⟩
  split
  · left
    ring
  · right
    ring

/-- Claim C10: with the viewport element not attached, every public
read accessor returns 0, the scrollTop/scrollLeft setters are silent
no-ops, and every scrollTo command performs nothing while still
returning the scrollbar instance for chaining. -/
theorem claimC10_detached (α : Type) (self : α) (v : ℚ) :
    getScrollTop none = 0 ∧ getScrollLeft none = 0 ∧ getScrollHeight none = 0
  ∧ getScrollWidth none = 0 ∧ getClientHeight none = 0 ∧ getClientWidth none = 0
  ∧ setScrollTop none v = [] ∧ setScrollLeft none v = []
  ∧ scrollToTop self none = (self, []) ∧ scrollToBottom self none = (self, [])
  ∧ scrollToLeft self none = (self, []) ∧ scrollToRight self none = (self, []) :=
  ⟨rfl, rfl, rfl, rfl, rfl, rfl, rfl, rfl, rfl, rfl, rfl, rfl⟩

/-!
## Claim about right-to-left placement (C7)
-/

/-- Claim C7: in the X-track block of update, when the X thumb geometry
is recomputed, the placement offset written to the thumb is the raw
computeThumbOffset value for left-to-right and is mirrored to
thumbSize + rawOffset - trackSize for right-to-left; the Y axis and the
gesture input path are never mirrored: handleThumbDrag feeds the raw
pointer offset into computeScrollForOffset unchanged (it does not read
the orientation at all).  Concretely, with thumbSize 30, rawOffset 10
and trackSize 100 the right-to-left placement is -60 while the
left-to-right placement is 10. -/
theorem claimC7_rtl (minimal : ℚ) (c : ContentMetrics) (tv : Bool) (mask : Nat) (w : ℚ)
    (hasOnDragX hasOnDragY : Bool) (tXW tYH thXW thYH offset : ℚ)
    (hbits : mask &&& (1 <<< 1) ≠ 0 ∨ mask &&& (1 <<< 3) ≠ 0 ∨ mask &&& (1 <<< 5) ≠ 0
           ∨ mask &&& (1 <<< 7) ≠ 0 ∨ mask &&& (1 <<< 9) ≠ 0) :
    (∀ isRtl : Bool,
      xThumbEffects minimal isRtl c true tv mask (some w)
        = (if mask &&& (1 <<< 11) ≠ 0 then [Effect.trackXDisplay tv] else [])
          ++ [Effect.thumbX
              (some (if isRtl
                then JSNum.jssub (JSNum.jsadd
                    (computeThumbSize (.num w) (.num c.scrollWidth) (.num c.clientWidth)
                      (.num minimal))
                    (computeThumbOffset (.num w)
                      (computeThumbSize (.num w) (.num c.scrollWidth) (.num c.clientWidth)
                        (.num minimal))
                      (.num c.scrollWidth) (.num c.clientWidth) (.num c.scrollLeft)))
                  (.num w)
                else computeThumbOffset (.num w)
                      (computeThumbSize (.num w) (.num c.scrollWidth) (.num c.clientWidth)
                        (.num minimal))
                      (.num c.scrollWidth) (.num c.clientWidth) (.num c.scrollLeft)))
              (computeThumbSize (.num w) (.num c.scrollWidth) (.num c.clientWidth)
                (.num minimal))
              true])
  ∧ handleThumbDrag hasOnDragX hasOnDragY c tXW tYH thXW thYH .x offset
      = [DomAction.scrollDetectSignal]
        ++ (if hasOnDragX then [DomAction.notifyThumbXDrag] else [])
        ++ [DomAction.writeScrollLeft (computeScrollForOffset (.num tXW) (.num thXW)
             (.num offset) (.num c.scrollWidth) (.num c.clientWidth))]
  ∧ xThumbEffects 30 true cRtl true true (1 <<< 5) (some 100)
      = [Effect.thumbX (some (.num (-60))) (.num 30) true]
  ∧ xThumbEffects 30 false cRtl true true (1 <<< 5) (some 100)
      = [Effect.thumbX (some (.num 10)) (.num 30) true] := by
  refine ⟨?_, rfl, ?_, ?_⟩
  · intro isRtl
    simp only [xThumbEffects]
    rw [if_pos hbits]
    simp
  · norm_num [xThumbEffects, cRtl, computeThumbSize, computeThumbOffset, JSNum.jsdiv,
      JSNum.jsmul, JSNum.jssub, JSNum.jsadd, JSNum.jsand, JSNum.jsceil, JSNum.jsOrZero,
      JSNum.truthy, JSNum.jseq, JSNum.jsmax]
    decide
  · norm_num [xThumbEffects, cRtl, computeThumbSize, computeThumbOffset, JSNum.jsdiv,
      JSNum.jsmul, JSNum.jssub, JSNum.jsadd, JSNum.jsand, JSNum.jsceil, JSNum.jsOrZero,
      JSNum.truthy, JSNum.jseq, JSNum.jsmax]
    decide

/-- Witness for claimC7_rtl at the spec's concrete geometry. -/
theorem claimC7_witness :
    ((1 <<< 5 : ℕ) &&& (1 <<< 1) ≠ 0 ∨ (1 <<< 5 : ℕ) &&& (1 <<< 3) ≠ 0
      ∨ (1 <<< 5 : ℕ) &&& (1 <<< 5) ≠ 0 ∨ (1 <<< 5 : ℕ) &&& (1 <<< 7) ≠ 0
      ∨ (1 <<< 5 : ℕ) &&& (1 <<< 9) ≠ 0)
  ∧ xThumbEffects 30 true cRtl true true (1 <<< 5) (some 100)
      = [Effect.thumbX (some (.num (-60))) (.num 30) true] := by
  have h : (1 <<< 5 : ℕ) &&& (1 <<< 1) ≠ 0 ∨ (1 <<< 5 : ℕ) &&& (1 <<< 3) ≠ 0
      ∨ (1 <<< 5 : ℕ) &&& (1 <<< 5) ≠ 0 ∨ (1 <<< 5 : ℕ) &&& (1 <<< 7) ≠ 0
      ∨ (1 <<< 5 : ℕ) &&& (1 <<< 9) ≠ 0 := by
    right; right; left; decide
  exact ⟨h, (claimC7_rtl 30 cRtl true (1 <<< 5) 100 false false 0 0 0 0 0 h).2.2.1⟩

/-!
## Claim about the activity detector (C9)
-/

/-- While a timer is pending and signals keep arriving before each
deadline, the run fires nothing and just keeps pushing the deadline. -/
lemma scrollDetectRun_pending (d : ℚ) (ts : List ℚ) :
    ∀ t0 : ℚ, List.Chain (fun a b => a < b ∧ b < a + d) t0 ts →
      scrollDetectRun true true d (some (t0 + d)) ts = (some (ts.getLastD t0 + d), []) := by
  induction ts with
  | nil => intro t0 _; rfl
  | cons t ts ih =>
    intro t0 hch
    rw [List.chain_cons] at hch
    obtain ⟨⟨hlt, hgap⟩, hch'⟩ := hch
    have hnot : ¬ t0 + d ≤ t := not_le.mpr hgap
    simp only [scrollDetectRun]
    rw [if_neg hnot]
    simp [scrollDetectStep, ih t hch']
    cases ts <;> simp [List.getLast?_cons]

/-- With neither observer configured the detector does no work at all. -/
lemma scrollDetectRun_silent (d : ℚ) (ts : List ℚ) :
    scrollDetectRun false false d none ts = (none, []) := by
  induction ts with
  | nil => rfl
  | cons t ts ih => simp [scrollDetectRun, scrollDetectStep, ih]

/-- Claim C9: a burst of N >= 1 scroll signals, each arriving strictly
within the debounce threshold of the previous one, produces exactly one
start notification (on the first signal, when no timer is pending) and
exactly one stop notification (when the timer set by the last signal
finally elapses); and with neither observer configured the detector
produces nothing and leaves no timer pending. -/
theorem claimC9_activity (d t : ℚ) (ts : List ℚ) (_hd : 0 < d)
    (hch : List.Chain (fun a b => a < b ∧ b < a + d) t ts) :
    scrollDetectBurst true true d (t :: ts)
      = [ScrollNotification.start, ScrollNotification.stop]
  ∧ (scrollDetectBurst true true d (t :: ts)).count ScrollNotification.start = 1
  ∧ (scrollDetectBurst true true d (t :: ts)).count ScrollNotification.stop = 1
  ∧ scrollDetectBurst false false d (t :: ts) = [] := by
  have hrun : scrollDetectRun true true d none (t :: ts)
      = (some (ts.getLastD t + d), [ScrollNotification.start]) := by
    simp only [scrollDetectRun]
    simp [scrollDetectStep, scrollDetectRun_pending d ts t hch]
  have hmain : scrollDetectBurst true true d (t :: ts)
      = [ScrollNotification.start, ScrollNotification.stop] := by
    simp [scrollDetectBurst, hrun, scrollDetectFinish]
  refine ⟨hmain, ?_, ?_, ?_⟩
  · rw [hmain]; decide
  · rw [hmain]; decide
  · simp [scrollDetectBurst, scrollDetectRun_silent, scrollDetectFinish]

/-- Witness for claimC9_activity: three signals at 0, 50, 90 with a
100-unit threshold. -/
theorem claimC9_witness :
    (0 < (100 : ℚ) ∧ List.Chain (fun a b : ℚ => a < b ∧ b < a + 100) 0 [50, 90])
  ∧ scrollDetectBurst true true 100 [0, 50, 90]
      = [ScrollNotification.start, ScrollNotification.stop] := by
  have hch : List.Chain (fun a b : ℚ => a < b ∧ b < a + 100) 0 [50, 90] := by
    norm_num [List.chain_cons]
  exact ⟨⟨by norm_num, hch⟩, (claimC9_activity 100 0 [50, 90] (by norm_num) hch).1⟩
